import Mathlib

/-
Shallow embedding of the task-management service in src/main.py.

The Python module keeps three global dicts (users, tasks, subtasks) keyed by
uuid; uuids are modelled as natural numbers supplied as explicit parameters
(uuid4 generation is nondeterministic, so handlers take the generated id as
an argument).  Python dicts preserve insertion order, so each dict is
modelled as an association list with unique keys; assignment to a fresh key
appends, assignment to a present key replaces in place.  progress_percentage
is an int in the stored records but calculate_progress returns a true
division, so progress is modelled as a rational number.

A central fact of the source: the handlers update_task_status (line 139) and
update_sub_task_status (line 154) compare the requested status against
Status.COMPLETE, which is not a member of the Status enum (its members are
COMPLETED, INCOMPLETE and PENDING, lines 23-26).  Evaluating Status.COMPLETE
raises AttributeError in Python, for every requested status value, after the
status assignment on line 138 (resp. line 153) has already mutated the
store.  The embedding models this as the error value Err.attributeError
returned together with the partially mutated state.
-/

namespace TaskApp

inductive Status
  | COMPLETED
  | INCOMPLETE
  | PENDING
deriving DecidableEq, Repr

structure UserRec where
  username : String
  name : String
  email : String
  session_token : String
deriving DecidableEq, Repr

structure Task where
  id : Nat
  user_id : Nat
  title : String
  description : Option String
  due_date : Option String
  status : Status
  sub_tasks_id : List Nat
  progress_percentage : ℚ
  priority : Option Int
deriving DecidableEq, Repr

structure SubTask where
  id : Nat
  user_id : Nat
  task_id : Nat
  title : String
  description : Option String
  due_date : Option String
  status : Status
  progress_percentage : ℚ
  priority : Option Int
deriving DecidableEq, Repr

structure AppState where
  users : List (Nat × UserRec)
  tasks : List (Nat × Task)
  subtasks : List (Nat × List SubTask)
deriving DecidableEq, Repr

structure CreateUserRequest where
  username : String
  name : String
  email : String
deriving DecidableEq, Repr

structure CreateTaskRequest where
  title : String
  description : Option String
  due_date : Option String
  priority : Option Int
deriving DecidableEq, Repr

structure CreateSubTaskRequest where
  task_id : Nat
  title : String
  description : Option String
  due_date : Option String
  priority : Option Int
deriving DecidableEq, Repr

inductive Err
  | notFound
  | unauthorized
  | attributeError
deriving DecidableEq, Repr

/-- Lookup in an ordered association list, first match wins (dict access). -/
def assocLookup {α : Type} (k : Nat) : List (Nat × α) → Option α
  | [] => none
  | p :: rest => if p.1 = k then some p.2 else assocLookup k rest

/-- Dict assignment: replace the value at the first occurrence of the key,
or append a fresh binding at the end (insertion order of Python dicts). -/
def assocSet {α : Type} (k : Nat) (v : α) : List (Nat × α) → List (Nat × α)
  | [] => [(k, v)]
  | p :: rest => if p.1 = k then (k, v) :: rest else p :: assocSet k v rest

/-- Dict deletion (del / pop with default). -/
def assocErase {α : Type} (k : Nat) (l : List (Nat × α)) : List (Nat × α) :=
  l.filter (fun p => p.1 != k)

/-- The subtask list attached to a task: subtasks.get(task_id, []). -/
def subsOf (st : AppState) (task_id : Nat) : List SubTask :=
  (assocLookup task_id st.subtasks).getD []

/-- calculate_progress, main.py lines 15-21.  With no attached subtasks it
returns 100 or 0 from the status of the task itself (the dead none branch
below corresponds to a KeyError in Python; both call sites guard existence of
the task).  Otherwise it returns the true-division mean of the subtask
progress values. -/
def calculate_progress (st : AppState) (task_id : Nat) : ℚ :=
  let task_subtasks := subsOf st task_id
  if task_subtasks.isEmpty then
    match assocLookup task_id st.tasks with
    | some t => if t.status = Status.COMPLETED then 100 else 0
    | none => 0
  else
    (task_subtasks.map SubTask.progress_percentage).sum / (task_subtasks.length : ℚ)

/-- authenticate_user, main.py lines 94-98: linear scan over the users dict
for an exact session-token match. -/
def authenticate_user (st : AppState) (x_session_token : String) : Except Err Nat :=
  match st.users.find? (fun p => p.2.session_token == x_session_token) with
  | some p => Except.ok p.1
  | none => Except.error Err.unauthorized

/-- create_user, main.py lines 100-105.  user_id and session_token stand for
the generated uuid4 and token_hex values. -/
def create_user (st : AppState) (req : CreateUserRequest) (user_id : Nat)
    (session_token : String) : Except Err Nat × AppState :=
  let u : UserRec :=
    { username := req.username, name := req.name, email := req.email,
      session_token := session_token }
  (Except.ok user_id, { st with users := assocSet user_id u st.users })

/-- create_task, main.py lines 107-111: fresh task in status PENDING with
progress 0 and an empty sub_tasks_id list. -/
def create_task (st : AppState) (user_id : Nat) (req : CreateTaskRequest)
    (task_id : Nat) : Except Err Task × AppState :=
  let t : Task :=
    { id := task_id, user_id := user_id, title := req.title,
      description := req.description, due_date := req.due_date,
      status := Status.PENDING, sub_tasks_id := [],
      progress_percentage := 0, priority := req.priority }
  (Except.ok t, { st with tasks := assocSet task_id t st.tasks })

/-- subtasks.setdefault(task_id, []).append(s), main.py line 119. -/
def setdefaultAppend (k : Nat) (s : SubTask) (l : List (Nat × List SubTask)) :
    List (Nat × List SubTask) :=
  match assocLookup k l with
  | some subs => assocSet k (subs ++ [s]) l
  | none => l ++ [(k, [s])]

/-- The SubTask record built on main.py line 118 from the request, the acting
user and the generated id. -/
def mkSubTask (user_id : Nat) (req : CreateSubTaskRequest) (subtask_id : Nat) :
    SubTask :=
  { id := subtask_id, user_id := user_id, task_id := req.task_id,
    title := req.title, description := req.description,
    due_date := req.due_date, status := Status.PENDING,
    progress_percentage := 0, priority := req.priority }

/-- create_subtask, main.py lines 113-122: 404 when the task id is absent
(no ownership check); otherwise append the new PENDING/0 subtask owned by the
acting user, recompute the parent progress, and reset the parent status to
PENDING unconditionally. -/
def create_subtask (st : AppState) (user_id : Nat) (req : CreateSubTaskRequest)
    (subtask_id : Nat) : Except Err SubTask × AppState :=
  match assocLookup req.task_id st.tasks with
  | none => (Except.error Err.notFound, st)
  | some t =>
    let sub := mkSubTask user_id req subtask_id
    let st1 : AppState :=
      { st with subtasks := setdefaultAppend req.task_id sub st.subtasks }
    let t1 : Task :=
      { t with progress_percentage := calculate_progress st1 req.task_id,
               status := Status.PENDING }
    (Except.ok sub, { st1 with tasks := assocSet req.task_id t1 st1.tasks })

/-- get_tasks, main.py lines 124-126: the tasks owned by the caller. -/
def get_tasks (st : AppState) (user_id : Nat) :
    Except Err (List (Nat × Task)) × AppState :=
  (Except.ok (st.tasks.filter (fun p => p.2.user_id == user_id)), st)

/-- get_task, main.py lines 128-132: 404 when the task is absent or owned by a
different user; on success the stored task together with its subtask list. -/
def get_task (st : AppState) (user_id : Nat) (task_id : Nat) :
    Except Err (Task × List SubTask) × AppState :=
  match assocLookup task_id st.tasks with
  | none => (Except.error Err.notFound, st)
  | some t =>
    if t.user_id ≠ user_id then (Except.error Err.notFound, st)
    else (Except.ok (t, subsOf st task_id), st)

/-- update_task_status, main.py lines 134-145: 404 when the task is absent or
owned by a different user.  Otherwise line 138 stores the requested status,
and line 139 then evaluates Status.COMPLETE, a name that is not a member of
the Status enum: Python raises AttributeError for every requested status, so
the cascade body (lines 140-144) is unreachable and the handler fails after
the status write has taken effect. -/
def update_task_status (st : AppState) (user_id : Nat) (task_id : Nat)
    (new_status : Status) : Except Err String × AppState :=
  match assocLookup task_id st.tasks with
  | none => (Except.error Err.notFound, st)
  | some t =>
    if t.user_id ≠ user_id then (Except.error Err.notFound, st)
    else
      let st1 : AppState :=
        { st with tasks := assocSet task_id { t with status := new_status } st.tasks }
      (Except.error Err.attributeError, st1)

/-- The for loop of main.py lines 151-155 up to the point where it raises:
the first subtask matching the id gets the requested status; the comparison
against the missing enum member Status.COMPLETE then raises, so no later
element is visited. -/
def setFirstSubStatus (subtask_id : Nat) (new_status : Status) :
    List SubTask → List SubTask
  | [] => []
  | s :: rest =>
    if s.id = subtask_id then { s with status := new_status } :: rest
    else s :: setFirstSubStatus subtask_id new_status rest

/-- update_sub_task_status, main.py lines 147-157: 404 when the task is
absent, has no subtask list, or the subtask id does not occur (the caller
identity plays no role).  Otherwise line 153 stores the requested status on
the matching subtask and line 154 evaluates Status.COMPLETE, which is not a
member of the Status enum: AttributeError is raised for every requested
status, so the progress write on line 155 and the parent recompute on line
156 are unreachable. -/
def update_sub_task_status (st : AppState) (user_id : Nat) (task_id : Nat)
    (subtask_id : Nat) (new_status : Status) : Except Err String × AppState :=
  match assocLookup task_id st.tasks, assocLookup task_id st.subtasks with
  | some _, some subs =>
    if subs.any (fun s => s.id == subtask_id) then
      let st1 : AppState :=
        { st with subtasks :=
            assocSet task_id (setFirstSubStatus subtask_id new_status subs) st.subtasks }
      (Except.error Err.attributeError, st1)
    else (Except.error Err.notFound, st)
  | _, _ => (Except.error Err.notFound, st)

/-- delete_task, main.py lines 159-165: 404 when the task is absent or owned
by a different user; otherwise remove the task and its subtask list. -/
def delete_task (st : AppState) (user_id : Nat) (task_id : Nat) :
    Except Err String × AppState :=
  match assocLookup task_id st.tasks with
  | none => (Except.error Err.notFound, st)
  | some t =>
    if t.user_id ≠ user_id then (Except.error Err.notFound, st)
    else
      (Except.ok "Task deleted successfully",
        { st with tasks := assocErase task_id st.tasks,
                  subtasks := assocErase task_id st.subtasks })

/-- One core operation together with the identifiers the runtime generates or
the transport layer resolves for it. -/
inductive Op
  | createUser (req : CreateUserRequest) (user_id : Nat) (session_token : String)
  | createTask (user_id : Nat) (req : CreateTaskRequest) (task_id : Nat)
  | createSubtask (user_id : Nat) (req : CreateSubTaskRequest) (subtask_id : Nat)
  | getTasks (user_id : Nat)
  | getTask (user_id : Nat) (task_id : Nat)
  | updateTaskStatus (user_id : Nat) (task_id : Nat) (new_status : Status)
  | updateSubTaskStatus (user_id : Nat) (task_id : Nat) (subtask_id : Nat)
      (new_status : Status)
  | deleteTask (user_id : Nat) (task_id : Nat)

/-- The state transition of one operation (the state component of the
handler, errors included, since Python mutations performed before a raise
persist in the global dicts). -/
def step (o : Op) (st : AppState) : AppState :=
  match o with
  | Op.createUser req uid tok => (create_user st req uid tok).2
  | Op.createTask uid req tid => (create_task st uid req tid).2
  | Op.createSubtask uid req sid => (create_subtask st uid req sid).2
  | Op.getTasks uid => (get_tasks st uid).2
  | Op.getTask uid tid => (get_task st uid tid).2
  | Op.updateTaskStatus uid tid ns => (update_task_status st uid tid ns).2
  | Op.updateSubTaskStatus uid tid sid ns =>
      (update_sub_task_status st uid tid sid ns).2
  | Op.deleteTask uid tid => (delete_task st uid tid).2

/-- The empty initial state: the three global dicts start empty. -/
def initState : AppState := { users := [], tasks := [], subtasks := [] }

/-- Run a sequence of operations from the empty initial state. -/
def runOps (l : List Op) : AppState := l.foldl (fun s o => step o s) initState

/-- A state is reachable when some operation sequence produces it. -/
def Reachable (st : AppState) : Prop := ∃ l, runOps l = st

/-- The addressability condition of update_sub_task_status, main.py line 149:
the task exists, it has a subtask list, and that list holds the subtask id. -/
def SubtaskAddressable (st : AppState) (task_id subtask_id : Nat) : Prop :=
  (∃ t, assocLookup task_id st.tasks = some t) ∧
  ∃ subs, assocLookup task_id st.subtasks = some subs ∧ ∃ s ∈ subs, s.id = subtask_id

theorem assocLookup_mem {α : Type} {k : Nat} {v : α} :
    ∀ {l : List (Nat × α)}, assocLookup k l = some v → (k, v) ∈ l := by
  intro l
  induction l with
  | nil => intro h; simp [assocLookup] at h
  | cons p rest ih =>
    intro h
    rw [assocLookup] at h
    split at h
    · rename_i hk
      injection h with h2
      have hp : (k, v) = p := by
        cases p
        cases hk
        cases h2
        rfl
      rw [hp]
      exact List.mem_cons_self p rest
    · exact List.mem_cons_of_mem p (ih h)

theorem assocLookup_assocSet_self {α : Type} (k : Nat) (v : α) :
    ∀ l : List (Nat × α), assocLookup k (assocSet k v l) = some v := by
  intro l
  induction l with
  | nil => simp [assocSet, assocLookup]
  | cons p rest ih =>
    rw [assocSet]
    split
    · simp [assocLookup]
    · rename_i hk
      rw [assocLookup]
      simp only [hk, if_false]
      exact ih

theorem assocLookup_append_left_none {α : Type} {k : Nat} :
    ∀ {l1 : List (Nat × α)} (l2 : List (Nat × α)), assocLookup k l1 = none →
      assocLookup k (l1 ++ l2) = assocLookup k l2 := by
  intro l1
  induction l1 with
  | nil => intro l2 _; simp
  | cons p rest ih =>
    intro l2 h
    rw [assocLookup] at h
    rw [List.cons_append, assocLookup]
    split at h
    · exact absurd h (by simp)
    · rename_i hk
      simp only [hk, if_false]
      exact ih l2 h

theorem assocLookup_setdefaultAppend_self (k : Nat) (s : SubTask)
    (l : List (Nat × List SubTask)) :
    assocLookup k (setdefaultAppend k s l) =
      some ((assocLookup k l).getD [] ++ [s]) := by
  rw [setdefaultAppend]
  cases h : assocLookup k l with
  | some subs => simp [h, assocLookup_assocSet_self]
  | none =>
    rw [assocLookup_append_left_none _ h]
    simp [assocLookup]

theorem mem_assocSet {α : Type} {k : Nat} {v : α} {p : Nat × α} :
    ∀ {l : List (Nat × α)}, p ∈ assocSet k v l → p = (k, v) ∨ p ∈ l := by
  intro l
  induction l with
  | nil => intro h; simp [assocSet] at h; exact Or.inl h
  | cons q rest ih =>
    intro h
    rw [assocSet] at h
    split at h
    · rcases List.mem_cons.mp h with h1 | h2
      · exact Or.inl h1
      · exact Or.inr (List.mem_cons_of_mem q h2)
    · rcases List.mem_cons.mp h with h1 | h2
      · exact Or.inr (h1 ▸ List.mem_cons_self q rest)
      · rcases ih h2 with h3 | h4
        · exact Or.inl h3
        · exact Or.inr (List.mem_cons_of_mem q h4)

theorem mem_setdefaultAppend {k : Nat} {s : SubTask} {q : Nat × List SubTask} :
    ∀ {l : List (Nat × List SubTask)}, q ∈ setdefaultAppend k s l →
      q ∈ l ∨ (∃ subs, assocLookup k l = some subs ∧ q = (k, subs ++ [s])) ∨
        q = (k, [s]) := by
  intro l h
  rw [setdefaultAppend] at h
  split at h
  · rename_i subs hsubs
    rcases mem_assocSet h with h1 | h2
    · exact Or.inr (Or.inl ⟨subs, hsubs, h1⟩)
    · exact Or.inl h2
  · rcases List.mem_append.mp h with h1 | h2
    · exact Or.inl h1
    · simp at h2
      exact Or.inr (Or.inr h2)

theorem setFirstSubStatus_progress_map (subtask_id : Nat) (new_status : Status) :
    ∀ subs : List SubTask,
      (setFirstSubStatus subtask_id new_status subs).map SubTask.progress_percentage =
        subs.map SubTask.progress_percentage := by
  intro subs
  induction subs with
  | nil => rfl
  | cons s rest ih =>
    rw [setFirstSubStatus]
    split
    · simp
    · simp [ih]

/-- The key reachability invariant of the source as written: no code path
that stores a nonzero progress value is reachable, because both status
handlers raise AttributeError (missing enum member Status.COMPLETE) before
any progress write, and create paths write 0 or a mean of existing values. -/
def progressAllZero (st : AppState) : Prop :=
  (∀ p ∈ st.tasks, p.2.progress_percentage = 0) ∧
  (∀ q ∈ st.subtasks, ∀ x ∈ q.2, x.progress_percentage = 0)

theorem calculate_progress_zero {st : AppState} {tid : Nat}
    (hz : ∀ x ∈ subsOf st tid, x.progress_percentage = 0)
    (hne : subsOf st tid ≠ []) :
    calculate_progress st tid = 0 := by
  rw [calculate_progress]
  simp only [List.isEmpty_iff, hne, if_false]
  have hsum : ((subsOf st tid).map SubTask.progress_percentage).sum = 0 := by
    apply List.sum_eq_zero
    intro y hy
    rcases List.mem_map.mp hy with ⟨x, hx, hxy⟩
    rw [← hxy]
    exact hz x hx
  rw [hsum, zero_div]

theorem progressAllZero_step (o : Op) (st : AppState)
    (h : progressAllZero st) : progressAllZero (step o st) := by
  obtain ⟨ht, hs⟩ := h
  cases o with
  | createUser req uid tok => exact ⟨ht, hs⟩
  | createTask uid req tid =>
    refine ⟨?_, hs⟩
    intro p hp
    rcases mem_assocSet hp with h1 | h2
    · rw [h1]
    · exact ht p h2
  | createSubtask uid req sid =>
    rw [step, create_subtask]
    cases htid : assocLookup req.task_id st.tasks with
    | none => exact ⟨ht, hs⟩
    | some t =>
      simp only
      constructor
      · intro p hp
        rcases mem_assocSet hp with h1 | h2
        · rw [h1]
          simp only
          apply calculate_progress_zero
          · intro x hx
            rw [subsOf] at hx
            simp only at hx
            rw [assocLookup_setdefaultAppend_self] at hx
            simp only [Option.getD_some] at hx
            rcases List.mem_append.mp hx with hx1 | hx2
            · cases hlk : assocLookup req.task_id st.subtasks with
              | none => rw [hlk] at hx1; simp at hx1
              | some subs =>
                rw [hlk] at hx1
                simp only [Option.getD_some] at hx1
                exact hs (req.task_id, subs) (assocLookup_mem hlk) x hx1
            · simp at hx2
              rw [hx2]
              rfl
          · rw [subsOf]
            simp only
            rw [assocLookup_setdefaultAppend_self]
            simp
        · exact ht p h2
      · intro q hq
        rcases mem_setdefaultAppend hq with h1 | h2 | h3
        · exact hs q h1
        · rcases h2 with ⟨subs, hsubs, hq2⟩
          rw [hq2]
          intro x hx
          rcases List.mem_append.mp hx with hx1 | hx2
          · exact hs (req.task_id, subs) (assocLookup_mem hsubs) x hx1
          · simp at hx2
            rw [hx2]
            rfl
        · rw [h3]
          intro x hx
          simp at hx
          rw [hx]
          rfl
  | getTasks uid => exact ⟨ht, hs⟩
  | getTask uid tid =>
    rw [step, get_task]
    cases htid : assocLookup tid st.tasks with
    | none => exact ⟨ht, hs⟩
    | some t =>
      simp only
      split
      · exact ⟨ht, hs⟩
      · exact ⟨ht, hs⟩
  | updateTaskStatus uid tid ns =>
    rw [step, update_task_status]
    cases htid : assocLookup tid st.tasks with
    | none => exact ⟨ht, hs⟩
    | some t =>
      simp only
      split
      · exact ⟨ht, hs⟩
      · refine ⟨?_, hs⟩
        intro p hp
        rcases mem_assocSet hp with h1 | h2
        · rw [h1]
          exact ht (tid, t) (assocLookup_mem htid)
        · exact ht p h2
  | updateSubTaskStatus uid tid sid ns =>
    rw [step, update_sub_task_status]
    cases htid : assocLookup tid st.tasks with
    | none => exact ⟨ht, hs⟩
    | some t =>
      cases hsub : assocLookup tid st.subtasks with
      | none => exact ⟨ht, hs⟩
      | some subs =>
        simp only
        split
        · refine ⟨ht, ?_⟩
          intro q hq
          rcases mem_assocSet hq with h1 | h2
          · rw [h1]
            intro x hx
            have hmap : x.progress_percentage ∈
                subs.map SubTask.progress_percentage := by
              rw [← setFirstSubStatus_progress_map sid ns subs]
              exact List.mem_map_of_mem SubTask.progress_percentage hx
            rcases List.mem_map.mp hmap with ⟨y, hy, hxy⟩
            rw [← hxy]
            exact hs (tid, subs) (assocLookup_mem hsub) y hy
          · exact hs q h2
        · exact ⟨ht, hs⟩
  | deleteTask uid tid =>
    rw [step, delete_task]
    cases htid : assocLookup tid st.tasks with
    | none => exact ⟨ht, hs⟩
    | some t =>
      simp only
      split
      · exact ⟨ht, hs⟩
      · constructor
        · intro p hp
          exact ht p (List.mem_of_mem_filter hp)
        · intro q hq
          exact hs q (List.mem_of_mem_filter hq)

theorem progressAllZero_runOps (l : List Op) : progressAllZero (runOps l) := by
  rw [runOps]
  have main : ∀ st : AppState, progressAllZero st →
      progressAllZero (l.foldl (fun s o => step o s) st) := by
    induction l with
    | nil => intro st h; exact h
    | cons o rest ih =>
      intro st h
      exact ih (step o st) (progressAllZero_step o st h)
  apply main
  constructor
  · intro p hp; simp [initState] at hp
  · intro q hq; simp [initState] at hq

theorem progressAllZero_of_reachable {st : AppState} (h : Reachable st) :
    progressAllZero st := by
  rcases h with ⟨l, hl⟩
  rw [← hl]
  exact progressAllZero_runOps l

theorem update_sub_task_status_tasks_eq (st : AppState) (uid tid sid : Nat)
    (ns : Status) :
    (update_sub_task_status st uid tid sid ns).2.tasks = st.tasks := by
  rw [update_sub_task_status]
  split
  · split
    · rfl
    · rfl
  · rfl

theorem calculate_progress_tasks_indep {st st' : AppState} {tid : Nat}
    (hsub : st.subtasks = st'.subtasks) (hne : subsOf st tid ≠ []) :
    calculate_progress st tid = calculate_progress st' tid := by
  have hsubs : subsOf st tid = subsOf st' tid := by rw [subsOf, subsOf, hsub]
  rw [calculate_progress, calculate_progress, ← hsubs]
  simp only [List.isEmpty_iff, hne, if_false]

/-
Concrete fixtures: user 1 registers, creates task 10, and attaches subtask 20
to it.  stCval is the resulting store, computed once and proved equal to the
operational run, so that later evaluations avoid re-normalizing the rational
division inside calculate_progress.
-/

def reqU : CreateUserRequest := { username := "u", name := "n", email := "e" }

def reqT : CreateTaskRequest :=
  { title := "t", description := none, due_date := none, priority := some 1 }

def reqS : CreateSubTaskRequest :=
  { task_id := 10, title := "s", description := none, due_date := none,
    priority := some 1 }

def opsW : List Op :=
  [Op.createUser reqU 1 "tok", Op.createTask 1 reqT 10, Op.createSubtask 1 reqS 20]

def stC : AppState := runOps opsW

def userW : UserRec :=
  { username := "u", name := "n", email := "e", session_token := "tok" }

def taskW : Task :=
  { id := 10, user_id := 1, title := "t", description := none, due_date := none,
    status := Status.PENDING, sub_tasks_id := [], progress_percentage := 0,
    priority := some 1 }

def subW : SubTask :=
  { id := 20, user_id := 1, task_id := 10, title := "s", description := none,
    due_date := none, status := Status.PENDING, progress_percentage := 0,
    priority := some 1 }

def stCval : AppState :=
  { users := [(1, userW)], tasks := [(10, taskW)], subtasks := [(10, [subW])] }

theorem stC_eq : stC = stCval := by
  show runOps opsW = stCval
  norm_num [runOps, opsW, step, initState, create_user, create_task,
    create_subtask, assocSet, assocLookup, setdefaultAppend, mkSubTask,
    calculate_progress, subsOf, reqU, reqT, reqS, stCval, userW, taskW, subW]

/-- A run in which user 1 registers, creates task 10 (no subtasks) and then
requests the status update to COMPLETED on it. -/
def ops4 : List Op :=
  [Op.createUser reqU 1 "tok", Op.createTask 1 reqT 10,
   Op.updateTaskStatus 1 10 Status.COMPLETED]

def taskW4 : Task := { taskW with status := Status.COMPLETED }

def st4val : AppState :=
  { users := [(1, userW)], tasks := [(10, taskW4)], subtasks := [] }

theorem st4_eq : runOps ops4 = st4val := by
  norm_num [runOps, ops4, step, initState, create_user, create_task,
    update_task_status, assocSet, assocLookup, reqU, reqT, st4val, userW,
    taskW, taskW4]

/-- C1: the claim states that updating an owned task to COMPLETED succeeds
and on success sets the task to COMPLETED/100 and cascades COMPLETED/100 to
every subtask.  The code falsifies it: after storing the status, line 139 of
main.py evaluates the missing enum member Status.COMPLETE and raises
AttributeError, so the call fails, the task keeps progress 0, and the
subtask stays PENDING with progress 0 instead of being cascade-completed. -/
theorem C1_completed_update_raises_without_cascade :
    (update_task_status stC 1 10 Status.COMPLETED).1 =
      Except.error Err.attributeError ∧
    (assocLookup 10 (update_task_status stC 1 10 Status.COMPLETED).2.tasks).map
      Task.status = some Status.COMPLETED ∧
    (assocLookup 10 (update_task_status stC 1 10 Status.COMPLETED).2.tasks).map
      Task.progress_percentage = some 0 ∧
    (subsOf (update_task_status stC 1 10 Status.COMPLETED).2 10).map
      SubTask.status = [Status.PENDING] ∧
    (subsOf (update_task_status stC 1 10 Status.COMPLETED).2 10).map
      SubTask.progress_percentage = [0] := by
  rw [stC_eq]
  refine ⟨rfl, ?_, ?_, ?_, ?_⟩ <;> decide

/-- C2: the claim states that an operation returning an error performs no
observable state change.  The code falsifies it at update_task_status: on an
existing owned task the handler returns an error (the AttributeError raised
on line 139 of main.py) while the status write of line 138 has already
mutated the store, so the state after the failing call differs from the
state before it. -/
theorem C2_update_task_status_error_mutates :
    (update_task_status stC 1 10 Status.COMPLETED).1 =
      Except.error Err.attributeError ∧
    (update_task_status stC 1 10 Status.COMPLETED).2 ≠ stC := by
  rw [stC_eq]
  exact ⟨rfl, by decide⟩

/-- C3: the claim states that the subtask status update succeeds, forces the
subtask progress to 100 when the requested status is COMPLETED, and then
recomputes the parent progress.  The code falsifies it: line 153 of main.py
stores the status, then line 154 evaluates the missing enum member
Status.COMPLETE and raises AttributeError, so the call fails and the subtask
keeps progress 0 although its status is now COMPLETED (the recompute on line
156 is never reached). -/
theorem C3_subtask_update_raises_without_progress :
    (update_sub_task_status stC 1 10 20 Status.COMPLETED).1 =
      Except.error Err.attributeError ∧
    (subsOf (update_sub_task_status stC 1 10 20 Status.COMPLETED).2 10).map
      SubTask.status = [Status.COMPLETED] ∧
    (subsOf (update_sub_task_status stC 1 10 20 Status.COMPLETED).2 10).map
      SubTask.progress_percentage = [0] := by
  rw [stC_eq]
  exact ⟨rfl, by decide, by decide⟩

/-- C4: the claim states the reachable-state invariant that a task with zero
subtasks has progress 100 exactly when its status is COMPLETED.  The code
falsifies it: the run ops4 reaches a state whose only task has no subtasks,
status COMPLETED (stored by line 138 of main.py before the AttributeError of
line 139) and progress 0 rather than 100. -/
theorem C4_reachable_completed_task_with_progress_zero :
    Reachable (runOps ops4) ∧
    assocLookup 10 (runOps ops4).subtasks = none ∧
    (assocLookup 10 (runOps ops4).tasks).map Task.status =
      some Status.COMPLETED ∧
    (assocLookup 10 (runOps ops4).tasks).map Task.progress_percentage =
      some 0 ∧
    (assocLookup 10 (runOps ops4).tasks).map Task.progress_percentage ≠
      some 100 := by
  refine ⟨⟨ops4, rfl⟩, ?_, ?_, ?_, ?_⟩ <;> (rw [st4_eq]; decide)

/-- C5: in every reachable state, every stored task with at least one subtask
has progress equal to the arithmetic mean of its subtask progress values.
This holds on the code: every reachable progress value is 0 (the status
handlers raise before any progress write), so both sides are 0. -/
theorem C5_progress_is_mean_of_subtasks (st : AppState) (h : Reachable st)
    (tid : Nat) (t : Task) (ht : assocLookup tid st.tasks = some t)
    (hne : subsOf st tid ≠ []) :
    t.progress_percentage =
      ((subsOf st tid).map SubTask.progress_percentage).sum /
        ((subsOf st tid).length : ℚ) := by
  have hz := progressAllZero_of_reachable h
  have h1 : t.progress_percentage = 0 := hz.1 (tid, t) (assocLookup_mem ht)
  have h2 : ∀ x ∈ subsOf st tid, x.progress_percentage = 0 := by
    intro x hx
    rw [subsOf] at hx
    cases hlk : assocLookup tid st.subtasks with
    | none => rw [hlk] at hx; simp at hx
    | some subs =>
      rw [hlk] at hx
      simp only [Option.getD_some] at hx
      exact hz.2 (tid, subs) (assocLookup_mem hlk) x hx
  have hsum : ((subsOf st tid).map SubTask.progress_percentage).sum = 0 := by
    apply List.sum_eq_zero
    intro y hy
    rcases List.mem_map.mp hy with ⟨x, hx, hxy⟩
    rw [← hxy]
    exact h2 x hx
  rw [h1, hsum, zero_div]

theorem C5_witness :
    taskW.progress_percentage =
      ((subsOf stC 10).map SubTask.progress_percentage).sum /
        ((subsOf stC 10).length : ℚ) :=
  C5_progress_is_mean_of_subtasks stC ⟨opsW, rfl⟩ 10 taskW
    (by rw [stC_eq]; decide) (by rw [stC_eq]; decide)

/-- C6: the subtask status-update operation never changes the status field of
any stored task, the parent included, whatever the recomputed progress would
be: the handler never writes to the tasks dict on any path. -/
theorem C6_subtask_update_never_changes_task_status (st : AppState)
    (uid tid sid : Nat) (ns : Status) :
    ((update_sub_task_status st uid tid sid ns).2.tasks).map
        (fun p => (p.1, p.2.status)) =
      st.tasks.map (fun p => (p.1, p.2.status)) := by
  rw [update_sub_task_status_tasks_eq]

theorem C6_witness :
    ((update_sub_task_status stC 1 10 20 Status.COMPLETED).2.tasks).map
        (fun p => (p.1, p.2.status)) =
      stC.tasks.map (fun p => (p.1, p.2.status)) :=
  C6_subtask_update_never_changes_task_status stC 1 10 20 Status.COMPLETED

/-- C7: get_task fails with NotFound exactly when the task is absent or owned
by a different user (one indistinguishable error value for both cases), it
never returns Unauthorized, and on success it returns the stored task with
its subtask list. -/
theorem C7_get_task_spec (st : AppState) (uid tid : Nat) :
    ((get_task st uid tid).1 = Except.error Err.notFound ↔
      assocLookup tid st.tasks = none ∨
        ∃ t, assocLookup tid st.tasks = some t ∧ t.user_id ≠ uid) ∧
    ((get_task st uid tid).1 ≠ Except.error Err.unauthorized) ∧
    (∀ t, assocLookup tid st.tasks = some t → t.user_id = uid →
      (get_task st uid tid).1 = Except.ok (t, subsOf st tid)) := by
  rw [get_task]
  cases h : assocLookup tid st.tasks with
  | none => simp
  | some t =>
    by_cases hu : t.user_id = uid
    · simp [hu]
    · simp [hu]

theorem C7_witness : (get_task stC 2 10).1 = Except.error Err.notFound :=
  (C7_get_task_spec stC 2 10).1.mpr
    (Or.inr ⟨taskW, by rw [stC_eq]; decide, by decide⟩)

/-- C8: create_subtask fails with NotFound exactly when the task id is absent
(the owner of the task is never consulted), and on success it appends a new
PENDING/0 subtask owned by the acting user to the subtask list of the task,
stores the recomputed aggregate as the parent progress, and resets the
parent status to PENDING unconditionally. -/
theorem C8_create_subtask_spec (st : AppState) (uid : Nat)
    (req : CreateSubTaskRequest) (sid : Nat) :
    ((create_subtask st uid req sid).1 = Except.error Err.notFound ↔
      assocLookup req.task_id st.tasks = none) ∧
    (assocLookup req.task_id st.tasks = none →
      (create_subtask st uid req sid).2 = st) ∧
    (∀ t, assocLookup req.task_id st.tasks = some t →
      (create_subtask st uid req sid).1 = Except.ok (mkSubTask uid req sid) ∧
      (mkSubTask uid req sid).status = Status.PENDING ∧
      (mkSubTask uid req sid).progress_percentage = 0 ∧
      (mkSubTask uid req sid).user_id = uid ∧
      subsOf (create_subtask st uid req sid).2 req.task_id =
        subsOf st req.task_id ++ [mkSubTask uid req sid] ∧
      assocLookup req.task_id (create_subtask st uid req sid).2.tasks =
        some { t with
          progress_percentage :=
            calculate_progress (create_subtask st uid req sid).2 req.task_id,
          status := Status.PENDING }) := by
  cases h : assocLookup req.task_id st.tasks with
  | none =>
    rw [create_subtask]
    simp [h]
  | some t =>
    have hfin : (create_subtask st uid req sid).2 =
        { st with
          subtasks := setdefaultAppend req.task_id (mkSubTask uid req sid) st.subtasks,
          tasks := assocSet req.task_id
            { t with
              progress_percentage := calculate_progress
                { st with subtasks :=
                    setdefaultAppend req.task_id (mkSubTask uid req sid) st.subtasks }
                req.task_id,
              status := Status.PENDING } st.tasks } := by
      rw [create_subtask, h]
    have hone : (create_subtask st uid req sid).1 =
        Except.ok (mkSubTask uid req sid) := by
      rw [create_subtask, h]
    have hsubs : subsOf (create_subtask st uid req sid).2 req.task_id =
        subsOf st req.task_id ++ [mkSubTask uid req sid] := by
      rw [hfin, subsOf]
      simp only
      rw [assocLookup_setdefaultAppend_self, Option.getD_some, subsOf]
    have hmid : subsOf
        { st with subtasks :=
            setdefaultAppend req.task_id (mkSubTask uid req sid) st.subtasks }
        req.task_id ≠ [] := by
      rw [subsOf]
      simp only
      rw [assocLookup_setdefaultAppend_self]
      simp
    refine ⟨?_, ?_, ?_⟩
    · rw [hone]
      simp
    · intro hc
      simp at hc
    · intro t' ht'
      have htt : t' = t := (Option.some.inj ht').symm
      subst htt
      refine ⟨hone, rfl, rfl, rfl, hsubs, ?_⟩
      have hind : calculate_progress
          { st with subtasks :=
              setdefaultAppend req.task_id (mkSubTask uid req sid) st.subtasks }
          req.task_id =
          calculate_progress (create_subtask st uid req sid).2 req.task_id := by
        apply calculate_progress_tasks_indep
        · rw [hfin]
        · exact hmid
      rw [← hind, hfin]
      simp only
      rw [assocLookup_assocSet_self]

theorem C8_witness :
    (create_subtask stC 1 reqS 21).1 = Except.ok (mkSubTask 1 reqS 21) ∧
    subsOf (create_subtask stC 1 reqS 21).2 reqS.task_id =
      subsOf stC reqS.task_id ++ [mkSubTask 1 reqS 21] := by
  have h := (C8_create_subtask_spec stC 1 reqS 21).2.2 taskW
    (by rw [stC_eq]; decide)
  exact ⟨h.1, h.2.2.2.2.1⟩

/-- C9: the subtask status update performs no ownership check: its result is
the same function of the store for every caller identity, and its NotFound
outcome depends only on whether the task exists, has a subtask list, and that
list holds the subtask id. -/
theorem C9_subtask_update_ignores_caller (st : AppState)
    (uid1 uid2 tid sid : Nat) (ns : Status) :
    update_sub_task_status st uid1 tid sid ns =
      update_sub_task_status st uid2 tid sid ns ∧
    ((update_sub_task_status st uid1 tid sid ns).1 = Except.error Err.notFound ↔
      ¬ SubtaskAddressable st tid sid) := by
  refine ⟨rfl, ?_⟩
  rw [update_sub_task_status, SubtaskAddressable]
  cases h1 : assocLookup tid st.tasks with
  | none => simp
  | some t =>
    cases h2 : assocLookup tid st.subtasks with
    | none => simp
    | some subs =>
      by_cases h3 : subs.any (fun s => s.id == sid)
      · simp only [h3, if_true]
        simp only [List.any_eq_true, beq_iff_eq] at h3
        simp [h3]
      · simp only [h3, if_false]
        simp only [List.any_eq_true, beq_iff_eq] at h3
        simp [h3]

theorem C9_witness :
    update_sub_task_status stC 1 10 20 Status.COMPLETED =
      update_sub_task_status stC 2 10 20 Status.COMPLETED :=
  (C9_subtask_update_ignores_caller stC 1 2 10 20 Status.COMPLETED).1

/-- C10: in every reachable state every stored progress value, of tasks and of
subtasks alike, is 0: creation paths write 0 or a mean of existing values,
and both status handlers raise on the missing enum member Status.COMPLETE
before any progress write. -/
theorem C10_all_stored_progress_zero (st : AppState) (h : Reachable st) :
    (∀ p ∈ st.tasks, p.2.progress_percentage = 0) ∧
    (∀ q ∈ st.subtasks, ∀ x ∈ q.2, x.progress_percentage = 0) :=
  progressAllZero_of_reachable h

theorem C10_witness :
    taskW.progress_percentage = 0 ∧ subW.progress_percentage = 0 :=
  ⟨(C10_all_stored_progress_zero stC ⟨opsW, rfl⟩).1 (10, taskW)
      (by rw [stC_eq]; decide),
   (C10_all_stored_progress_zero stC ⟨opsW, rfl⟩).2 (10, [subW])
      (by rw [stC_eq]; decide) subW (by decide)⟩

end TaskApp
